import Mathlib

/-!
Verification of the Overly-Complicated-Photo-Album media-intelligence core.

This file gives a shallow embedding, in Lean 4, of the parts of the
repository that the specification's claims are about:

* tag extraction (`album/services/ai_analysis_service.py`,
  `AIAnalysisService._extract_tags_from_description`);
* the hybrid AI search (`album/services/search_service.py`,
  `MediaSearchService.search_album_by_text`, including the inner
  `apply_threshold` closure);
* the Celery tasks (`album/tasks.py`: `process_photo_ai`,
  `process_video_ai`, `process_pending_photos_batch`), embedded as
  explicit state transformers over a list of rows;
* the management commands `analyze_photos` and `generate_embeddings`.

Database rows are modelled as Lean structures; querysets as lists;
`order_by` as a stable insertion sort; floating point arithmetic on
distances and confidences as exact rational arithmetic.  The pgvector
`CosineDistance` operator involves square roots and is therefore passed
in as an abstract function argument `dist`; all claims about the search
quantify over the distance values it produces.
-/

namespace PhotoAlbum

/-! ### Text utilities

Python `str.lower`, substring test (`in` on strings, Django
`icontains`), and whitespace splitting (`str.split()`). -/

/-- Python `needle in hay` would begin by testing whether `needle` is an
initial segment of `hay`; this is that initial-segment test on
character lists. -/
def charsStartWith : List Char → List Char → Bool
  | [], _ => true
  | _ :: _, [] => false
  | a :: as, b :: bs => a == b && charsStartWith as bs

/-- Substring test on character lists: Python `needle in hay`. -/
def charsContain (hay needle : List Char) : Bool :=
  match hay with
  | [] => charsStartWith needle []
  | _ :: t => charsStartWith needle (hay) || charsContain t needle

/-- Python `s.lower()` (ASCII case folding suffices for the fixed
vocabulary used by the service). -/
def toLowerStr (s : String) : String :=
  ⟨s.data.map Char.toLower⟩

/-- Django `field__icontains=q` / Python `q in s.lower()` where the
field value is lowercased first: case-insensitive substring test. -/
def icontains (s q : String) : Bool :=
  charsContain (toLowerStr s).data (toLowerStr q).data

/-- Helper for `splitWS`: walks the characters, accumulating the
current (reversed) word. -/
def splitWSAux : List Char → List Char → List String
  | [], acc => if acc.isEmpty then [] else [⟨acc.reverse⟩]
  | c :: cs, acc =>
    if c.isWhitespace then
      (if acc.isEmpty then [] else [(⟨acc.reverse⟩ : String)]) ++ splitWSAux cs []
    else splitWSAux cs (c :: acc)

/-- Python `s.split()`: split on whitespace, dropping empty pieces. -/
def splitWS (s : String) : List String :=
  splitWSAux s.data []

/-! ### Tag extraction

`AIAnalysisService._extract_tags_from_description`, translated clause by
clause from `album/services/ai_analysis_service.py`. -/

/-- The `tag_keywords` dictionary, in its Python insertion order. -/
def tag_keywords : List (String × List String) :=
  [("water", ["water", "pool", "swimming", "lake", "ocean", "sea", "river"]),
   ("people", ["person", "people", "man", "woman", "child", "boy", "girl"]),
   ("animals", ["dog", "cat", "bird", "animal", "pet"]),
   ("nature", ["tree", "grass", "flower", "garden", "park", "forest"]),
   ("buildings", ["house", "building", "home", "room", "kitchen", "bathroom"]),
   ("vehicles", ["car", "truck", "bike", "bicycle", "vehicle"]),
   ("sports", ["ball", "game", "sport", "playing"]),
   ("food", ["food", "eating", "meal", "kitchen"]),
   ("outdoor", ["outdoor", "outside", "sky", "cloud", "sun"]),
   ("indoor", ["indoor", "inside", "room"])]

/-- The `stop_words` set. -/
def stop_words : List String :=
  ["a", "an", "the", "is", "are", "and", "or", "but", "in", "on", "at",
   "to", "for", "of", "with", "by", "from", "up", "about", "into",
   "through", "during", "before", "after", "above", "below", "between",
   "among", "under", "over"]

/-- Body of the inner loop over one keyword: append the keyword if new,
then append the category label if it is new and at least one tag from
this category's keyword list is present.  Both membership checks read
the list as already mutated by the first append, as in the Python. -/
def keywordStepCat (cat : String) (kws : List String)
    (tags1 : List String) : List String :=
  if cat ∉ tags1 ∧ 1 ≤ (tags1.filter (fun t => decide (t ∈ kws))).length then
    tags1 ++ [cat]
  else tags1

def keywordStep (dl : String) (cat : String) (kws : List String)
    (tags : List String) (kw : String) : List String :=
  if charsContain dl.data kw.data then
    keywordStepCat cat kws (if kw ∈ tags then tags else tags ++ [kw])
  else tags

/-- The double loop `for category, keywords in tag_keywords.items(): for
keyword in keywords: ...` accumulating into `tags` (initially empty). -/
def keywordPass (dl : String) : List String :=
  tag_keywords.foldl (fun tags ck => ck.2.foldl (keywordStep dl ck.1 ck.2) tags) []

/-- `_extract_tags_from_description(description)`: keyword/category scan,
then up to three significant words (length > 3, not a stop word, not
already a tag), truncated to ten tags. -/
def extract_tags_from_description (description : String) : List String :=
  if description = "" then []
  else
    let dl := toLowerStr description
    let tags := keywordPass dl
    let words := splitWS dl
    let significant_words :=
      words.filter (fun w =>
        decide (3 < w.length) && !decide (w ∈ stop_words) && !decide (w ∈ tags))
    (tags ++ significant_words.take 3).take 10

/-! ### Data model

`Photo` and `Video` rows (`album/models.py`), restricted to the fields
the pipeline and the search engine touch.  `hasImageField` models the
Python truthiness of `photo.image` (plus `hasattr(photo.image, 'path')`)
and `imageFileExists` models `os.path.exists(photo.image.path)`;
likewise for the video thumbnail.  `uploaded_at` is an abstract
timestamp, and `ai_processing_date` the models' nullable
processed-at timestamp column (`models.py` lines 189/246), also as an
abstract `Option Nat` time.  Vector fields are rational vectors, `null`
as `none`. -/

inductive ProcessingStatus
  | pending
  | processing
  | completed
  | failed
deriving DecidableEq

structure Photo where
  id : Nat
  title : String
  description : String
  ai_description : String
  ai_tags : List String
  ai_confidence_score : ℚ
  ai_processed : Bool
  ai_processing_date : Option Nat
  ai_processing_error : String
  processing_status : ProcessingStatus
  embedding : Option (List ℚ)
  uploaded_at : Nat
  hasImageField : Bool
  imageFileExists : Bool
deriving DecidableEq

structure Video where
  id : Nat
  title : String
  description : String
  ai_description : String
  ai_tags : List String
  ai_confidence_score : ℚ
  ai_processed : Bool
  ai_processing_date : Option Nat
  ai_processing_error : String
  processing_status : ProcessingStatus
  thumbnail_embedding : Option (List ℚ)
  uploaded_at : Nat
  hasThumbnailField : Bool
  thumbnailFileExists : Bool
deriving DecidableEq

/-- A fresh row, with the Django field defaults of `album/models.py`:
`ai_description` blank, `ai_tags` `[]`, confidence `0.0`,
`ai_processed` `False`, error blank, status `PENDING`, embedding null. -/
def basePhoto : Photo :=
  { id := 0, title := "", description := "", ai_description := "",
    ai_tags := [], ai_confidence_score := 0, ai_processed := false,
    ai_processing_date := none, ai_processing_error := "",
    processing_status := .pending, embedding := none, uploaded_at := 0,
    hasImageField := true, imageFileExists := true }

/-- A fresh video row with the Django defaults. -/
def baseVideo : Video :=
  { id := 0, title := "", description := "", ai_description := "",
    ai_tags := [], ai_confidence_score := 0, ai_processed := false,
    ai_processing_date := none, ai_processing_error := "",
    processing_status := .pending, thumbnail_embedding := none,
    uploaded_at := 0, hasThumbnailField := true,
    thumbnailFileExists := true }

/-- Spec §3 invariant: `aiProcessed == true` iff `processingStatus ==
COMPLETED`. -/
def invariantProcessed (p : Photo) : Prop :=
  p.ai_processed = true ↔ p.processing_status = .completed

/-- Spec §3 invariant: `embedding` is non-null only when
`processingStatus == COMPLETED`. -/
def invariantEmbedding (p : Photo) : Prop :=
  p.embedding ≠ none → p.processing_status = .completed

/-! ### Ordering relations for `order_by`

Django `order_by('-uploaded_at')`, `order_by('uploaded_at')` and
`order_by('distance')` are modelled as stable insertion sorts by the
corresponding relation. -/

/-- Upload recency descending (`order_by('-uploaded_at')`) on photos. -/
def photoRecGE (a b : Photo) : Prop := b.uploaded_at ≤ a.uploaded_at

/-- Upload recency descending on videos. -/
def videoRecGE (a b : Video) : Prop := b.uploaded_at ≤ a.uploaded_at

/-- Upload time ascending (oldest first, `order_by('uploaded_at')`). -/
def photoRecLE (a b : Photo) : Prop := a.uploaded_at ≤ b.uploaded_at

/-- Annotated distance ascending (`order_by('distance')`). -/
def distLE {α : Type} (a b : α × ℚ) : Prop := a.2 ≤ b.2

instance : DecidableRel photoRecGE := fun a b =>
  inferInstanceAs (Decidable (b.uploaded_at ≤ a.uploaded_at))

instance : DecidableRel videoRecGE := fun a b =>
  inferInstanceAs (Decidable (b.uploaded_at ≤ a.uploaded_at))

instance : DecidableRel photoRecLE := fun a b =>
  inferInstanceAs (Decidable (a.uploaded_at ≤ b.uploaded_at))

instance {α : Type} : DecidableRel (distLE (α := α)) := fun a b =>
  inferInstanceAs (Decidable (a.2 ≤ b.2))

instance : IsTotal Photo photoRecGE :=
  ⟨fun a b => Nat.le_total b.uploaded_at a.uploaded_at⟩

instance : IsTrans Photo photoRecGE :=
  ⟨fun _ _ _ h1 h2 => Nat.le_trans h2 h1⟩

instance : IsTotal Video videoRecGE :=
  ⟨fun a b => Nat.le_total b.uploaded_at a.uploaded_at⟩

instance : IsTrans Video videoRecGE :=
  ⟨fun _ _ _ h1 h2 => Nat.le_trans h2 h1⟩

instance : IsTotal Photo photoRecLE :=
  ⟨fun a b => Nat.le_total a.uploaded_at b.uploaded_at⟩

instance : IsTrans Photo photoRecLE :=
  ⟨fun _ _ _ h1 h2 => Nat.le_trans h1 h2⟩

instance {α : Type} : IsTotal (α × ℚ) (distLE (α := α)) :=
  ⟨fun a b => le_total a.2 b.2⟩

instance {α : Type} : IsTrans (α × ℚ) (distLE (α := α)) :=
  ⟨fun _ _ _ h1 h2 => le_trans h1 h2⟩

/-! ### Hybrid AI search

`MediaSearchService.search_album_by_text`
(`album/services/search_service.py`).  The permission filtering that
produces the base querysets is the caller's concern; the embedding
receives the already-scoped candidate lists.  `generate_text_embedding`
is represented by its result (`query_embedding : Option (List ℚ)`,
`none` for Python `None`/falsy), and pgvector's `CosineDistance` by the
abstract argument `dist`. -/

/-- The exact-match pass predicate:
`Q(ai_description__icontains=query) | Q(ai_tags__contains=[query])`. -/
def aiTextMatchP (q : String) (p : Photo) : Bool :=
  icontains p.ai_description q || decide (q ∈ p.ai_tags)

/-- Exact-match pass predicate for videos. -/
def aiTextMatchV (q : String) (v : Video) : Bool :=
  icontains v.ai_description q || decide (q ∈ v.ai_tags)

/-- The plain text-search predicate used in `'text'` mode and in the
no-embedding fallback: title, description, AI description, tags. -/
def fullTextMatchP (q : String) (p : Photo) : Bool :=
  icontains p.title q || icontains p.description q ||
    icontains p.ai_description q || decide (q ∈ p.ai_tags)

/-- Plain text-search predicate for videos. -/
def fullTextMatchV (q : String) (v : Video) : Bool :=
  icontains v.title q || icontains v.description q ||
    icontains v.ai_description q || decide (q ∈ v.ai_tags)

/-- `photos.annotate(distance=CosineDistance(field,
qe)).filter(field__isnull=False).order_by('distance')`: keep candidates
with a stored vector, pair each with its distance to the query
embedding, sort by ascending distance. -/
def candidatePairs {α : Type} (emb : α → Option (List ℚ))
    (dist : List ℚ → List ℚ → ℚ) (qe : List ℚ) (items : List α) :
    List (α × ℚ) :=
  (items.filter (fun x => (emb x).isSome)).map
    (fun x => (x, dist ((emb x).getD []) qe))

def withDistance {α : Type} (emb : α → Option (List ℚ))
    (dist : List ℚ → List ℚ → ℚ) (qe : List ℚ) (items : List α) :
    List (α × ℚ) :=
  List.insertionSort distLE (candidatePairs emb dist qe items)

/-- The inner `apply_threshold` closure of `search_album_by_text`
(lines 88–102 of `album/services/search_service.py`): on a non-empty
distance-ordered queryset, compute the adaptive threshold from the
first (smallest) distance and the mean distance, clamp at
`max_threshold = 0.09`, keep strictly-closer candidates; if nothing
survives — or the queryset was empty — return the empty queryset
(`queryset_with_distance.none()`). -/
def apply_threshold {α : Type} (queryset_with_distance : List (α × ℚ)) :
    List (α × ℚ) :=
  match queryset_with_distance with
  | [] => []
  | first :: rest =>
    let min_distance := first.2
    let all_distances := (first :: rest).map Prod.snd
    let mean_distance := all_distances.sum / all_distances.length
    let adaptive_threshold :=
      min_distance + (mean_distance - min_distance) * (1 / 5 : ℚ)
    let max_threshold : ℚ := 9 / 100
    let similarity_threshold := min adaptive_threshold max_threshold
    let semantic_results :=
      (first :: rest).filter (fun p => decide (p.2 < similarity_threshold))
    if semantic_results.isEmpty then [] else semantic_results

/-- `MediaSearchService.search_album_by_text(query, album_id, user,
search_type)` after the permission scoping, returning the pair of result
lists (photos, videos).  The vector branch returns the photos/videos of
the surviving annotated rows in queryset order. -/
def search_album_by_text (dist : List ℚ → List ℚ → ℚ)
    (query_embedding : Option (List ℚ)) (query : String)
    (photos : List Photo) (videos : List Video) (search_type : String) :
    List Photo × List Video :=
  if query = "" then
    (List.insertionSort photoRecGE photos, List.insertionSort videoRecGE videos)
  else if search_type = "ai" then
    let photo_text_matches := photos.filter (aiTextMatchP query)
    let video_text_matches := videos.filter (aiTextMatchV query)
    if photo_text_matches.isEmpty = false ∨ video_text_matches.isEmpty = false then
      (List.insertionSort photoRecGE photo_text_matches,
       List.insertionSort videoRecGE video_text_matches)
    else
      match query_embedding with
      | some qe =>
        let photos_with_distance := withDistance Photo.embedding dist qe photos
        let videos_with_distance := withDistance Video.thumbnail_embedding dist qe videos
        ((apply_threshold photos_with_distance).map Prod.fst,
         (apply_threshold videos_with_distance).map Prod.fst)
      | none =>
        (List.insertionSort photoRecGE (photos.filter (fullTextMatchP query)),
         List.insertionSort videoRecGE (videos.filter (fullTextMatchV query)))
  else
    (List.insertionSort photoRecGE (photos.filter (fullTextMatchP query)),
     List.insertionSort videoRecGE (videos.filter (fullTextMatchV query)))

/-! ### Celery tasks (`album/tasks.py`)

The tasks are embedded as explicit state transformers over a list of
photo rows (the table).  `analyze : Photo → Except String
AnalysisResult` stands for `analyze_image(photo.image.path)`: `Except.ok`
an analysis result, `Except.error msg` an exception with message `msg`.
A task's normal return value (the Python result dict) is
`TaskOutcome.finished status error`; `TaskOutcome.retryRaised msg` is
`raise self.retry(exc=exc)`. -/

/-- `AnalysisResult` of the Analysis Backend Adapter. -/
structure AnalysisResult where
  description : String
  tags : List String
  confidence : ℚ
deriving DecidableEq

inductive TaskOutcome
  | finished (status : String) (error : Option String)
  | retryRaised (excMsg : String)
deriving DecidableEq

/-- Decorator configuration of `process_photo_ai` (`tasks.py` line 13):
`max_retries=3`. -/
def processPhotoAiMaxRetries : Nat := 3

/-- Decorator configuration: `default_retry_delay=60` (seconds). -/
def processPhotoAiRetryDelay : Nat := 60

/-- Decorator configuration: `time_limit=600` (seconds). -/
def processPhotoAiTimeLimit : Nat := 600

/-- Decorator configuration: `soft_time_limit=540` (seconds). -/
def processPhotoAiSoftTimeLimit : Nat := 540

/-- `is_ai_analysis_available()` — the service always reports available
(`AIAnalysisService.is_available` returns `True` unconditionally). -/
def is_ai_analysis_available : Bool := true

/-- `Photo.objects.get(id=pid)` on the list model. -/
def getPhotoById (store : List Photo) (pid : Nat) : Option Photo :=
  store.find? (fun p => decide (p.id = pid))

/-- `photo.save(...)` after mutating the row fetched by id: replace that
row's fields in the table. -/
def updatePhotoById (store : List Photo) (pid : Nat) (f : Photo → Photo) :
    List Photo :=
  store.map (fun p => if p.id = pid then f p else p)

/-- The read half of the PENDING → PROCESSING step (`tasks.py` line 28):
a plain fetch, with no status precondition. -/
def enqueue_read (store : List Photo) (pid : Nat) : Option Photo :=
  getPhotoById store pid

/-- The in-memory mutation of the PENDING → PROCESSING step
(`tasks.py` lines 29–30): unconditionally set `processing_status`. -/
def setProcessing (p : Photo) : Photo :=
  { p with processing_status := .processing }

/-- The write half of the PENDING → PROCESSING step (`tasks.py`
lines 29–31): `photo.processing_status = PROCESSING;
photo.save(update_fields=['processing_status'])`.  The save succeeds
whatever the row's current status is. -/
def enqueue_write (store : List Photo) (pid : Nat) : List Photo :=
  updatePhotoById store pid setProcessing

/-- The success path of `process_photo_ai` (`tasks.py` lines 49–58):
persist `ai_description`, `ai_tags`, `ai_confidence_score`, set
`ai_processed`, set status COMPLETED.  `update_fields` names exactly
those five columns, so `embedding`, `ai_processing_error` and
`ai_processing_date` are left as they were. -/
def succeedPhoto (p : Photo) (r : AnalysisResult) : Photo :=
  { p with ai_description := r.description, ai_tags := r.tags,
           ai_confidence_score := r.confidence, ai_processed := true,
           processing_status := .completed }

/-- The exception handler of `process_photo_ai` (`tasks.py` lines 73–77):
set status FAILED and record the exception message; `update_fields`
is `['processing_status', 'ai_processing_error']`. -/
def failPhoto (p : Photo) (msg : String) : Photo :=
  { p with processing_status := .failed, ai_processing_error := msg }

/-- The success path of `process_video_ai` (`tasks.py` lines 126–136):
like the photo path but also persisting the freshly generated
`thumbnail_embedding` (which may be `None`). -/
def succeedVideo (v : Video) (r : AnalysisResult) (emb : Option (List ℚ)) :
    Video :=
  { v with ai_description := r.description, ai_tags := r.tags,
           ai_confidence_score := r.confidence, ai_processed := true,
           processing_status := .completed, thumbnail_embedding := emb }

/-- One execution of the body of `process_photo_ai`: fetch, mark
PROCESSING, run the guards and the analysis, then either persist the
results, or record FAILED and raise a retry; a missing row returns
`{'status': 'error', 'error': 'Photo not found'}` with no retry and no
write. -/
def process_photo_ai_attempt (analyze : Photo → Except String AnalysisResult)
    (store : List Photo) (pid : Nat) : List Photo × TaskOutcome :=
  match getPhotoById store pid with
  | none => (store, .finished "error" (some "Photo not found"))
  | some photo =>
    let store1 := enqueue_write store pid
    let photo1 := setProcessing photo
    if is_ai_analysis_available = false then
      (updatePhotoById store1 pid
        (fun q => failPhoto q "AI analysis service is not available"),
       .retryRaised "AI analysis service is not available")
    else if photo1.hasImageField = false then
      (updatePhotoById store1 pid
        (fun q => failPhoto q "Photo has no image file path"),
       .retryRaised "Photo has no image file path")
    else if photo1.imageFileExists = false then
      (updatePhotoById store1 pid
        (fun q => failPhoto q "Image file does not exist"),
       .retryRaised "Image file does not exist")
    else
      match analyze photo1 with
      | .ok r =>
        if r.description = "" then
          (updatePhotoById store1 pid
            (fun q => failPhoto q "AI analysis returned no description"),
           .retryRaised "AI analysis returned no description")
        else
          (updatePhotoById store1 pid (fun q => succeedPhoto q r),
           .finished "success" none)
      | .error msg =>
        (updatePhotoById store1 pid (fun q => failPhoto q msg),
         .retryRaised msg)

/-- The Celery retry loop around `process_photo_ai`: `retriesLeft`
retries remain; a `retryRaised` outcome re-runs the task (after the
fixed 60-second delay) with the next attempt's analyzer until retries
are exhausted, at which point the last exception propagates and the last
written state stands. -/
def processPhotoAiGo (analyzeAt : Nat → Photo → Except String AnalysisResult)
    (pid : Nat) : Nat → Nat → List Photo → List Photo × TaskOutcome
  | 0, attempt, store => process_photo_ai_attempt (analyzeAt attempt) store pid
  | Nat.succ k, attempt, store =>
    match process_photo_ai_attempt (analyzeAt attempt) store pid with
    | (store1, TaskOutcome.retryRaised _) =>
      processPhotoAiGo analyzeAt pid k (attempt + 1) store1
    | (store1, out) => (store1, out)

/-- `process_photo_ai` including its retry policy: an initial attempt
plus up to `max_retries = 3` retries. -/
def process_photo_ai_run (analyzeAt : Nat → Photo → Except String AnalysisResult)
    (store : List Photo) (pid : Nat) : List Photo × TaskOutcome :=
  processPhotoAiGo analyzeAt pid processPhotoAiMaxRetries 0 store

/-- `process_pending_photos_batch` (`tasks.py` lines 164–195): no-op if
`settings.AI_SCHEDULED_PROCESSING` is off; otherwise select the rows
with `processing_status=PENDING, ai_processed=False`, order by
`uploaded_at` ascending, slice to `AI_BATCH_SIZE`, and queue
`process_photo_ai.delay(photo.id)` for each, in order.  The value is the
list of queued photos (the task's return dict reports its length). -/
def process_pending_photos_batch (ai_scheduled_processing : Bool)
    (ai_batch_size : Nat) (photos : List Photo) : List Photo :=
  if ai_scheduled_processing = false then []
  else
    (List.insertionSort photoRecLE
      (photos.filter (fun p =>
        decide (p.processing_status = .pending) && !p.ai_processed))).take
      ai_batch_size

/-! ### Management commands (`album/management/commands/`)

Both commands write through `Photo.objects.filter(pk=...).update(...)`,
touching only the named columns. -/

/-- `analyze_photos` without `--force`/`--album` (the claim's cited
lines): for each photo with a blank `ai_description` and a present,
existing image file, run the analysis and, if it yields a non-empty
description, update `ai_description`, `ai_tags`, `ai_confidence_score`
and `ai_processed=True` — and nothing else: `processing_status` is not
among the updated columns. -/
def analyze_photos_command (analyze : Photo → Except String AnalysisResult)
    (photos : List Photo) : List Photo :=
  photos.map (fun p =>
    if p.ai_description = "" then
      if p.hasImageField && p.imageFileExists then
        match analyze p with
        | .ok r =>
          if r.description = "" then p
          else
            { p with ai_description := r.description, ai_tags := r.tags,
                     ai_confidence_score := r.confidence, ai_processed := true }
        | .error _ => p
      else p
    else p)

/-- `generate_embeddings` without `--force`: for each photo with a null
`embedding` and a present image field, generate an embedding (`gen`,
standing for `generate_image_embedding`, `None` on failure) and store it
via `update(embedding=embedding)` — regardless of the row's
`processing_status`. -/
def generate_embeddings_command (gen : Photo → Option (List ℚ))
    (photos : List Photo) : List Photo :=
  photos.map (fun p =>
    if p.embedding = none ∧ p.hasImageField = true then
      match gen p with
      | some e => { p with embedding := some e }
      | none => p
    else p)

/-- The head-of-vector distance function used for concrete search
inputs: an item whose stored embedding is `[d]` is at distance `d` from
any query embedding.  It stands in for `CosineDistance` at witness
inputs, where only the distance values matter. -/
def distHead : List ℚ → List ℚ → ℚ := fun v _ => v.headD 0

/-- A COMPLETED photo whose stored embedding is `[d]`, so that its
`distHead` distance to any query is `d`. -/
def photoD (i : Nat) (d : ℚ) : Photo :=
  { basePhoto with
    id := i, uploaded_at := i, processing_status := .completed,
    ai_processed := true, embedding := some [d] }

/-- The spec's adaptive-threshold example: candidates at distances
`[0.02, 0.03, 0.5, 0.6]`. -/
def photosC1 : List Photo :=
  [photoD 1 (1 / 50), photoD 2 (3 / 100), photoD 3 (1 / 2), photoD 4 (3 / 5)]

/-- Two candidates at equal distance `0.5`: the adaptive threshold
clamps to `0.09` and the strict filter keeps nothing. -/
def photosC2 : List Photo :=
  [photoD 1 (1 / 2), photoD 2 (1 / 2)]

/-- A photo whose AI description contains "car" (capitalised, to
exercise the case-insensitive match) but whose embedding is far from the
query under `distHead`. -/
def photoCar : Photo :=
  { basePhoto with
    id := 10, uploaded_at := 5, ai_description := "a red Car on a road",
    processing_status := .completed, ai_processed := true,
    embedding := some [9 / 10] }

/-- A photo with no textual match whose embedding is very close to the
query under `distHead`. -/
def photoSun : Photo :=
  { basePhoto with
    id := 11, uploaded_at := 6, ai_description := "a sunset",
    processing_status := .completed, ai_processed := true,
    embedding := some [1 / 100] }

/-- A PENDING photo uploaded at time `i`, used as concrete batch-scheduler
input. -/
def samplePendingPhoto (i : Nat) : Photo :=
  { basePhoto with id := i, uploaded_at := i }

/-- One hundred PENDING photos, uploaded at times `0, …, 99`. -/
def photos100 : List Photo :=
  (List.range 100).map samplePendingPhoto

/-! ## Helper lemmas -/

/-- A fold preserves any invariant its step preserves. -/
theorem foldlPreserves {α β : Type} (P : α → Prop) (f : α → β → α)
    (hf : ∀ a b, P a → P (f a b)) :
    ∀ (l : List β) (a : α), P a → P (l.foldl f a) := by
  intro l
  induction l with
  | nil => intro a ha; exact ha
  | cons b t ih => intro a ha; exact ih (f a b) (hf a b ha)

/-- Appending a genuinely new element keeps a list duplicate-free. -/
theorem nodup_append_single {α : Type} [DecidableEq α] {l : List α} {a : α}
    (h : l.Nodup) (ha : a ∈ l → False) : (l ++ [a]).Nodup := by
  rw [List.nodup_append]
  exact ⟨h, List.nodup_singleton a, by
    intro x hx hxa
    rw [List.mem_singleton] at hxa
    exact ha (hxa ▸ hx)⟩

/-- One step of the keyword loop keeps the tag list duplicate-free: both
appends are guarded by a membership check. -/
theorem keywordStepCat_nodup (cat : String) (kws : List String)
    (tags1 : List String) (h : tags1.Nodup) :
    (keywordStepCat cat kws tags1).Nodup := by
  unfold keywordStepCat
  split
  · next hcat => exact nodup_append_single h hcat.1
  · exact h

/-- One step of the keyword loop keeps the tag list duplicate-free: both
appends are guarded by a membership check. -/
theorem keywordStep_nodup (dl cat : String) (kws : List String)
    (tags : List String) (kw : String) (h : tags.Nodup) :
    (keywordStep dl cat kws tags kw).Nodup := by
  unfold keywordStep
  split
  · refine keywordStepCat_nodup cat kws _ ?_
    split
    · exact h
    · next hkw => exact nodup_append_single h hkw
  · exact h

/-- The whole keyword/category pass produces a duplicate-free list. -/
theorem keywordPass_nodup (dl : String) : (keywordPass dl).Nodup := by
  unfold keywordPass
  exact foldlPreserves List.Nodup _
    (fun tags ck h =>
      foldlPreserves List.Nodup _ (fun t kw ht => keywordStep_nodup dl ck.1 ck.2 t kw ht)
        ck.2 tags h)
    tag_keywords [] List.nodup_nil

/-! ## Claims -/

/-- C4 (counterexample): tag extraction does not return a
duplicate-free list.  A significant word repeated in the description is
collected once per occurrence — the `word not in tags` test compares
against the keyword tags only, never against the words already
collected — so the description `"wonderful wonderful wonderful"` yields
the tag `"wonderful"` three times. -/
theorem c4_counterexample :
    extract_tags_from_description "wonderful wonderful wonderful" =
      ["wonderful", "wonderful", "wonderful"] ∧
    ¬ (extract_tags_from_description "wonderful wonderful wonderful").Nodup := by
  refine ⟨by decide, ?_⟩
  rw [show extract_tags_from_description "wonderful wonderful wonderful" =
    ["wonderful", "wonderful", "wonderful"] by decide]
  decide

/-- C4 (amended): for every description, tag extraction returns at most
10 tags: the duplicate-free keyword/category tags followed by at most 3
additional significant words (length > 3, not a stop word, not already
among the keyword/category tags), in order of discovery — but the
appended significant words may repeat a word that occurs several times
in the description, so the full list need not be duplicate-free. -/
theorem c4_tag_extraction (description : String) :
    (extract_tags_from_description description).length ≤ 10 ∧
    (keywordPass (toLowerStr description)).Nodup ∧
    ∃ sig : List String,
      sig.length ≤ 3 ∧
      (∀ w ∈ sig, 3 < w.length ∧ w ∉ stop_words ∧
        w ∉ keywordPass (toLowerStr description)) ∧
      extract_tags_from_description description =
        (keywordPass (toLowerStr description) ++ sig).take 10 := by
  by_cases hd : description = ""
  · subst hd
    refine ⟨by decide, by decide, [], by decide, by simp, by decide⟩
  · unfold extract_tags_from_description
    rw [if_neg hd]
    refine ⟨List.length_take_le 10 _, keywordPass_nodup _, ?_⟩
    refine ⟨_, ?_, ?_, rfl⟩
    · exact List.length_take_le 3 _
    · intro w hw
      have hw2 := List.mem_filter.mp (List.take_subset 3 _ hw)
      have hp := hw2.2
      simp only [Bool.and_eq_true, Bool.not_eq_true', decide_eq_true_eq,
        decide_eq_false_iff_not] at hp
      exact ⟨hp.1.1, hp.1.2, hp.2⟩

/-- C5 (counterexample): the success path of the analysis task does not
clear `processingError`, does not persist an embedding for photos, and
does not stamp `ai_processing_date`: a PROCESSING photo carrying the
error message of an earlier failed run reaches COMPLETED with that error
message still set, its embedding still null and its processed-at
timestamp still null, contradicting "persists … the embedding, clears
processingError, and stamps processedAt". -/
theorem c5_counterexample :
    (succeedPhoto
        { basePhoto with
          processing_status := .processing,
          ai_processing_error := "previous failure" }
        ⟨"a dog", ["dog"], 9 / 10⟩).processing_status = .completed ∧
    (succeedPhoto
        { basePhoto with
          processing_status := .processing,
          ai_processing_error := "previous failure" }
        ⟨"a dog", ["dog"], 9 / 10⟩).ai_processing_error = "previous failure" ∧
    "previous failure" ≠ "" ∧
    (succeedPhoto
        { basePhoto with
          processing_status := .processing,
          ai_processing_error := "previous failure" }
        ⟨"a dog", ["dog"], 9 / 10⟩).embedding = none ∧
    (succeedPhoto
        { basePhoto with
          processing_status := .processing,
          ai_processing_error := "previous failure" }
        ⟨"a dog", ["dog"], 9 / 10⟩).ai_processing_date = none := by
  exact ⟨rfl, rfl, by decide, rfl, rfl⟩

/-- C5 (amended): the success path of the analysis task moves the item
to COMPLETED, persists `aiDescription`, `aiTags`, `aiConfidence` and
sets `aiProcessed`; the video task additionally persists the freshly
generated thumbnail embedding.  It leaves `processingError` (and, for
photos, `embedding`) untouched, and stamps no processed-at timestamp:
`ai_processing_date` is not among the saved columns and keeps its prior
value; so a COMPLETED item has `aiProcessed == true` but may carry a
non-empty `processingError` from an earlier failed attempt. -/
theorem c5_succeed_transition (p : Photo) (r : AnalysisResult) (v : Video)
    (emb : Option (List ℚ)) :
    (succeedPhoto p r).processing_status = .completed ∧
    (succeedPhoto p r).ai_processed = true ∧
    (succeedPhoto p r).ai_description = r.description ∧
    (succeedPhoto p r).ai_tags = r.tags ∧
    (succeedPhoto p r).ai_confidence_score = r.confidence ∧
    (succeedPhoto p r).embedding = p.embedding ∧
    (succeedPhoto p r).ai_processing_error = p.ai_processing_error ∧
    (succeedPhoto p r).ai_processing_date = p.ai_processing_date ∧
    (succeedVideo v r emb).processing_status = .completed ∧
    (succeedVideo v r emb).ai_processed = true ∧
    (succeedVideo v r emb).thumbnail_embedding = emb ∧
    (succeedVideo v r emb).ai_processing_error = v.ai_processing_error ∧
    (succeedVideo v r emb).ai_processing_date = v.ai_processing_date := by
  exact ⟨rfl, rfl, rfl, rfl, rfl, rfl, rfl, rfl, rfl, rfl, rfl, rfl, rfl⟩

/-- C6 (code bug): the maintenance commands break both stated
invariants.  On a fresh PENDING photo (which satisfies both),
`generate_embeddings` stores a non-null embedding while the status stays
PENDING, and `analyze_photos` sets `ai_processed = True` while the
status stays PENDING. -/
theorem c6_commands_break_invariants :
    (invariantProcessed basePhoto ∧ invariantEmbedding basePhoto) ∧
    generate_embeddings_command (fun _ => some [1]) [basePhoto] =
      [{ basePhoto with embedding := some [1] }] ∧
    ({ basePhoto with embedding := some [1] } : Photo).processing_status =
      .pending ∧
    ¬ invariantEmbedding { basePhoto with embedding := some [1] } ∧
    analyze_photos_command (fun _ => Except.ok ⟨"a dog", ["dog"], 9 / 10⟩)
        [basePhoto] =
      [{ basePhoto with
         ai_description := "a dog", ai_tags := ["dog"],
         ai_confidence_score := 9 / 10, ai_processed := true }] ∧
    ({ basePhoto with
       ai_description := "a dog", ai_tags := ["dog"],
       ai_confidence_score := 9 / 10, ai_processed := true } : Photo).processing_status =
      .pending ∧
    ¬ invariantProcessed
        { basePhoto with
          ai_description := "a dog", ai_tags := ["dog"],
          ai_confidence_score := 9 / 10, ai_processed := true } := by
  refine ⟨⟨?_, ?_⟩, rfl, rfl, ?_, rfl, rfl, ?_⟩
  · unfold invariantProcessed; decide
  · unfold invariantEmbedding; decide
  · unfold invariantEmbedding; decide
  · unfold invariantProcessed; decide

/-- C10 (code bug): the PENDING → PROCESSING step has no guard.  The
code fetches the row and then unconditionally writes
`processing_status = PROCESSING` in a separate save: the write succeeds
even on a COMPLETED item, and when two calls interleave on the same
PENDING item both reads observe PENDING and both writes apply — nothing
makes the transition conditional on the expected prior state. -/
theorem c10_enqueue_unguarded :
    (enqueue_read
        [{ basePhoto with
           id := 1, processing_status := .completed, ai_processed := true }] 1 =
      some { basePhoto with
             id := 1, processing_status := .completed, ai_processed := true }) ∧
    (enqueue_write
        [{ basePhoto with
           id := 1, processing_status := .completed, ai_processed := true }] 1 =
      [{ basePhoto with
         id := 1, processing_status := .processing, ai_processed := true }]) ∧
    ({ basePhoto with id := 2 } : Photo).processing_status = .pending ∧
    (enqueue_read [{ basePhoto with id := 2 }] 2 =
      some { basePhoto with id := 2 }) ∧
    (enqueue_write (enqueue_write [{ basePhoto with id := 2 }] 2) 2 =
      [{ basePhoto with id := 2, processing_status := .processing }]) := by
  exact ⟨by decide, by decide, rfl, by decide, by decide⟩

/-- A single run of the photo task body on a one-row table whose
analysis raises: the row is marked FAILED with the exception message and
the task raises a retry. -/
theorem attempt_on_error (q : Photo) (pid : Nat) (msg : String)
    (hid : q.id = pid) (h1 : q.hasImageField = true)
    (h2 : q.imageFileExists = true) :
    process_photo_ai_attempt (fun _ => Except.error msg) [q] pid =
      ([{ q with processing_status := .failed, ai_processing_error := msg }],
       TaskOutcome.retryRaised msg) := by
  subst hid
  unfold process_photo_ai_attempt getPhotoById enqueue_write updatePhotoById
    setProcessing is_ai_analysis_available failPhoto
  simp [h1, h2]

/-- C7 (counterexample): the task does not wait for its retries to be
exhausted before writing FAILED.  Already after the first failing
attempt — with all `max_retries = 3` retries still ahead of it — the row
is FAILED with that attempt's exception message. -/
theorem c7_counterexample :
    process_photo_ai_attempt (fun _ => Except.error "backend down")
        [basePhoto] 0 =
      ([{ basePhoto with
          processing_status := .failed,
          ai_processing_error := "backend down" }],
       TaskOutcome.retryRaised "backend down") ∧
    1 ≤ processPhotoAiMaxRetries := by
  exact ⟨by decide, by decide⟩

/-- The retry loop on a one-row table whose analysis raises on every
attempt: with `k` retries left starting at attempt number `attempt`, the
loop runs `k + 1` further attempts, leaves the row FAILED with the last
attempt's message, and lets the last retry exception propagate. -/
theorem go_all_error (msgs : Nat → String) (pid : Nat) :
    ∀ (k attempt : Nat) (q : Photo), q.id = pid → q.hasImageField = true →
      q.imageFileExists = true →
      processPhotoAiGo (fun i _ => Except.error (msgs i)) pid k attempt [q] =
        ([{ q with
            processing_status := .failed,
            ai_processing_error := msgs (attempt + k) }],
         TaskOutcome.retryRaised (msgs (attempt + k))) := by
  intro k
  induction k with
  | zero =>
    intro attempt q hid h1 h2
    simp only [processPhotoAiGo]
    rw [attempt_on_error q pid (msgs attempt) hid h1 h2, Nat.add_zero]
  | succ k ih =>
    intro attempt q hid h1 h2
    simp only [processPhotoAiGo]
    rw [attempt_on_error q pid (msgs attempt) hid h1 h2]
    simp only []
    rw [ih (attempt + 1)
      { q with
        processing_status := .failed, ai_processing_error := msgs attempt }
      hid h1 h2]
    have h3 : attempt + 1 + k = attempt + (k + 1) := by omega
    rw [h3]

/-- C7 (amended): on a task whose analysis raises on every attempt, each
attempt (not only the last) marks the item FAILED with that attempt's
exception message; the task is configured to retry up to 3 times with a
fixed 60-second delay; after the final attempt the item is FAILED with
the final exception message verbatim, and `aiDescription`, `aiTags`,
`aiConfidence` and the embedding are unchanged from their pre-task
values. -/
theorem c7_retry_policy (p : Photo) (msgs : Nat → String)
    (h1 : p.hasImageField = true) (h2 : p.imageFileExists = true) :
    processPhotoAiMaxRetries = 3 ∧ processPhotoAiRetryDelay = 60 ∧
    process_photo_ai_attempt (fun _ => Except.error (msgs 0)) [p] p.id =
      ([{ p with
          processing_status := .failed, ai_processing_error := msgs 0 }],
       TaskOutcome.retryRaised (msgs 0)) ∧
    process_photo_ai_run (fun i _ => Except.error (msgs i)) [p] p.id =
      ([{ p with
          processing_status := .failed, ai_processing_error := msgs 3 }],
       TaskOutcome.retryRaised (msgs 3)) ∧
    ∀ q ∈ (process_photo_ai_run (fun i _ => Except.error (msgs i)) [p] p.id).1,
      q.ai_description = p.ai_description ∧ q.ai_tags = p.ai_tags ∧
      q.ai_confidence_score = p.ai_confidence_score ∧
      q.embedding = p.embedding := by
  have hrun : process_photo_ai_run (fun i _ => Except.error (msgs i)) [p] p.id =
      ([{ p with
          processing_status := .failed, ai_processing_error := msgs 3 }],
       TaskOutcome.retryRaised (msgs 3)) := by
    have h0 := go_all_error msgs p.id 3 0 p rfl h1 h2
    rw [Nat.zero_add] at h0
    exact h0
  refine ⟨rfl, rfl, attempt_on_error p p.id (msgs 0) rfl h1 h2, hrun, ?_⟩
  intro q hq
  rw [hrun] at hq
  rw [List.mem_singleton] at hq
  subst hq
  exact ⟨rfl, rfl, rfl, rfl⟩

/-- C7 witness: the amended retry behaviour at a concrete photo and
concrete exception messages. -/
theorem c7_retry_policy_witness :
    basePhoto.hasImageField = true ∧ basePhoto.imageFileExists = true ∧
    (processPhotoAiMaxRetries = 3 ∧ processPhotoAiRetryDelay = 60 ∧
     process_photo_ai_attempt
         (fun _ => Except.error ((fun i => "boom " ++ toString i) 0))
         [basePhoto] basePhoto.id =
       ([{ basePhoto with
           processing_status := .failed,
           ai_processing_error := (fun i => "boom " ++ toString i) 0 }],
        TaskOutcome.retryRaised ((fun i => "boom " ++ toString i) 0)) ∧
     process_photo_ai_run
         (fun i _ => Except.error ((fun i => "boom " ++ toString i) i))
         [basePhoto] basePhoto.id =
       ([{ basePhoto with
           processing_status := .failed,
           ai_processing_error := (fun i => "boom " ++ toString i) 3 }],
        TaskOutcome.retryRaised ((fun i => "boom " ++ toString i) 3)) ∧
     ∀ q ∈ (process_photo_ai_run
         (fun i _ => Except.error ((fun i => "boom " ++ toString i) i))
         [basePhoto] basePhoto.id).1,
       q.ai_description = basePhoto.ai_description ∧
       q.ai_tags = basePhoto.ai_tags ∧
       q.ai_confidence_score = basePhoto.ai_confidence_score ∧
       q.embedding = basePhoto.embedding) :=
  ⟨rfl, rfl, c7_retry_policy basePhoto (fun i => "boom " ++ toString i) rfl rfl⟩

/-- C8 (counterexample): on a missing item the task does return quietly
without retrying or writing, but its result dict is
`{'status': 'error', 'error': 'Photo not found'}` — the status field is
`"error"`, not `"not found"`. -/
theorem c8_counterexample :
    process_photo_ai_attempt (fun _ => Except.ok ⟨"a dog", ["dog"], 1⟩) [] 1 =
      ([], TaskOutcome.finished "error" (some "Photo not found")) ∧
    TaskOutcome.finished "error" (some "Photo not found") ≠
      TaskOutcome.finished "not found" (some "Photo not found") := by
  exact ⟨rfl, by decide⟩

/-- C8 (amended): when the target photo does not exist, every attempt —
and the whole retried task — returns normally with status `"error"` and
message `"Photo not found"`: no exception escapes, no retry is raised,
no FAILED transition happens and the table is left untouched. -/
theorem c8_missing_item (az : Photo → Except String AnalysisResult)
    (azAt : Nat → Photo → Except String AnalysisResult)
    (store : List Photo) (pid : Nat)
    (h : getPhotoById store pid = none) :
    process_photo_ai_attempt az store pid =
      (store, TaskOutcome.finished "error" (some "Photo not found")) ∧
    process_photo_ai_run azAt store pid =
      (store, TaskOutcome.finished "error" (some "Photo not found")) := by
  have hat : ∀ f : Photo → Except String AnalysisResult,
      process_photo_ai_attempt f store pid =
        (store, TaskOutcome.finished "error" (some "Photo not found")) := by
    intro f
    unfold process_photo_ai_attempt
    rw [h]
  refine ⟨hat az, ?_⟩
  unfold process_photo_ai_run processPhotoAiMaxRetries
  simp only [processPhotoAiGo, hat]

/-- C8 witness: the missing-item behaviour on an empty table. -/
theorem c8_missing_item_witness :
    getPhotoById [] 3 = none ∧
    process_photo_ai_attempt (fun _ => Except.ok ⟨"d", ["t"], 1⟩) [] 3 =
      ([], TaskOutcome.finished "error" (some "Photo not found")) ∧
    process_photo_ai_run (fun _ _ => Except.ok ⟨"d", ["t"], 1⟩) [] 3 =
      ([], TaskOutcome.finished "error" (some "Photo not found")) :=
  ⟨rfl,
   (c8_missing_item (fun _ => Except.ok ⟨"d", ["t"], 1⟩)
     (fun _ _ => Except.ok ⟨"d", ["t"], 1⟩) [] 3 rfl).1,
   (c8_missing_item (fun _ => Except.ok ⟨"d", ["t"], 1⟩)
     (fun _ _ => Except.ok ⟨"d", ["t"], 1⟩) [] 3 rfl).2⟩

/-- C9: the scheduled batch run is a no-op when scheduled processing is
disabled; otherwise — on any table in which PENDING items are not yet
marked processed, as the state-machine invariant provides — it queues
exactly `min(numberPending, batchSize)` tasks, queues only PENDING
items, and queues them oldest-uploaded-first (the queued items are
sorted by upload time and no skipped PENDING item is older than a queued
one). -/
theorem c9_batch_scheduler (n : Nat) (photos : List Photo)
    (hinv : ∀ p ∈ photos, p.processing_status = .pending → p.ai_processed = false) :
    process_pending_photos_batch false n photos = [] ∧
    (process_pending_photos_batch true n photos).length =
      min (photos.countP fun p => decide (p.processing_status = .pending)) n ∧
    (∀ p ∈ process_pending_photos_batch true n photos,
      p ∈ photos ∧ p.processing_status = .pending) ∧
    List.Sorted photoRecLE (process_pending_photos_batch true n photos) ∧
    (∀ p ∈ process_pending_photos_batch true n photos,
      ∀ q ∈ photos, q.processing_status = .pending →
        q ∉ process_pending_photos_batch true n photos →
        p.uploaded_at ≤ q.uploaded_at) := by
  have hfe : photos.filter
        (fun p => decide (p.processing_status = .pending) && !p.ai_processed) =
      photos.filter (fun p => decide (p.processing_status = .pending)) := by
    apply List.filter_congr
    intro x hx
    by_cases hp : x.processing_status = .pending
    · simp [hp, hinv x hx hp]
    · simp [hp]
  have hbatch : process_pending_photos_batch true n photos =
      (List.insertionSort photoRecLE
        (photos.filter fun p => decide (p.processing_status = .pending))).take n := by
    unfold process_pending_photos_batch
    rw [if_neg (by decide), hfe]
  set sorted := List.insertionSort photoRecLE
    (photos.filter fun p => decide (p.processing_status = .pending)) with hsorted
  have hperm := List.perm_insertionSort photoRecLE
    (photos.filter fun p => decide (p.processing_status = .pending))
  have hsort : List.Sorted photoRecLE sorted :=
    List.sorted_insertionSort photoRecLE _
  refine ⟨?_, ?_, ?_, ?_, ?_⟩
  · unfold process_pending_photos_batch
    rw [if_pos rfl]
  · rw [hbatch, List.length_take, List.length_insertionSort,
      ← List.countP_eq_length_filter, Nat.min_comm]
  · intro p hp
    rw [hbatch] at hp
    have hp2 : p ∈ sorted := List.take_subset n _ hp
    have hp4 := List.mem_filter.mp (hperm.mem_iff.mp hp2)
    exact ⟨hp4.1, of_decide_eq_true hp4.2⟩
  · rw [hbatch]
    exact List.Pairwise.sublist (List.take_sublist n sorted) hsort
  · intro p hp q hq hqpend hqnot
    rw [hbatch] at hp hqnot
    have hqf : q ∈ sorted :=
      hperm.mem_iff.mpr (List.mem_filter.mpr ⟨hq, decide_eq_true hqpend⟩)
    have hqdrop : q ∈ sorted.drop n := by
      have h5 : q ∈ sorted.take n ++ sorted.drop n := by
        rw [List.take_append_drop]; exact hqf
      rcases List.mem_append.mp h5 with h6 | h6
      · exact absurd h6 hqnot
      · exact h6
    have hpair : List.Pairwise photoRecLE (sorted.take n ++ sorted.drop n) := by
      rw [List.take_append_drop]; exact hsort
    exact (List.pairwise_append.mp hpair).2.2 p hp q hqdrop

/-- C9 witness: with 100 PENDING photos and `batchSize = 10`, exactly
the 10 oldest are queued, in upload order. -/
theorem c9_batch_scheduler_witness :
    (∀ p ∈ photos100, p.processing_status = .pending → p.ai_processed = false) ∧
    ((process_pending_photos_batch true 10 photos100).length =
      min (photos100.countP fun p => decide (p.processing_status = .pending)) 10) ∧
    (process_pending_photos_batch true 10 photos100).length = 10 ∧
    (process_pending_photos_batch true 10 photos100).map Photo.id =
      List.range 10 := by
  refine ⟨by decide, (c9_batch_scheduler 10 photos100 (by decide)).2.1,
    by decide, by decide⟩

/-- On a non-empty annotated queryset, `apply_threshold` is exactly the
strict filter at the effective threshold (the final
`semantic_results if semantic_results.exists() else none()` returns the
filter result in both cases). -/
theorem apply_threshold_filter {α : Type} (first : α × ℚ) (rest : List (α × ℚ)) :
    apply_threshold (first :: rest) =
      (first :: rest).filter (fun p => decide (p.2 <
        min (first.2 + (((first :: rest).map Prod.snd).sum /
          ((first :: rest).map Prod.snd).length - first.2) * (1 / 5))
          (9 / 100))) := by
  unfold apply_threshold
  simp only []
  split
  · next hemp =>
    rw [List.isEmpty_iff] at hemp
    exact hemp.symm
  · rfl

/-- When the exact pass is empty and a query embedding exists, the AI
search is the thresholded vector pipeline on both kinds. -/
theorem search_ai_vector_branch (dist : List ℚ → List ℚ → ℚ) (qe : List ℚ)
    (query : String) (photos : List Photo) (videos : List Video)
    (hq : query ≠ "") (hpm : photos.filter (aiTextMatchP query) = [])
    (hvm : videos.filter (aiTextMatchV query) = []) :
    search_album_by_text dist (some qe) query photos videos "ai" =
      ((apply_threshold (withDistance Photo.embedding dist qe photos)).map
        Prod.fst,
       (apply_threshold (withDistance Video.thumbnail_embedding dist qe
        videos)).map Prod.fst) := by
  unfold search_album_by_text
  rw [if_neg hq, if_pos rfl]
  simp only []
  rw [hpm, hvm]
  simp only [List.isEmpty_nil]
  rw [if_neg (by simp)]

/-- When some candidate passes the exact pass, the AI search returns the
recency-sorted exact matches of both kinds. -/
theorem search_ai_text_branch (dist : List ℚ → List ℚ → ℚ)
    (query_embedding : Option (List ℚ)) (query : String)
    (photos : List Photo) (videos : List Video)
    (hq : query ≠ "")
    (hcond : (photos.filter (aiTextMatchP query)).isEmpty = false ∨
      (videos.filter (aiTextMatchV query)).isEmpty = false) :
    search_album_by_text dist query_embedding query photos videos "ai" =
      (List.insertionSort photoRecGE (photos.filter (aiTextMatchP query)),
       List.insertionSort videoRecGE (videos.filter (aiTextMatchV query))) := by
  unfold search_album_by_text
  rw [if_neg hq, if_pos rfl]
  simp only []
  rw [if_pos hcond]

/-- The kept set of the vector pipeline, characterised over the raw
candidate pairs: there is a least candidate distance `dmin`, and an item
is kept exactly when it carries a distance below
`min(dmin + (mean − dmin)·0.2, 0.09)`. -/
theorem vector_kept_characterization {α : Type} (pairs : List (α × ℚ))
    (hne : pairs ≠ []) :
    ∃ dmin : ℚ,
      dmin ∈ pairs.map Prod.snd ∧
      (∀ d ∈ pairs.map Prod.snd, dmin ≤ d) ∧
      (∀ x : α,
        x ∈ (apply_threshold (List.insertionSort distLE pairs)).map Prod.fst ↔
        ∃ d : ℚ, (x, d) ∈ pairs ∧
          d < min (dmin + ((pairs.map Prod.snd).sum /
            (pairs.map Prod.snd).length - dmin) * (1 / 5)) (9 / 100)) := by
  have hperm := List.perm_insertionSort distLE pairs
  have hsort := List.sorted_insertionSort distLE pairs
  obtain ⟨first, rest, hfr⟩ :
      ∃ f r, List.insertionSort distLE pairs = f :: r := by
    cases hs : List.insertionSort distLE pairs with
    | nil =>
      exfalso
      apply hne
      have h0 := hperm.symm
      rw [hs] at h0
      exact List.eq_nil_of_length_eq_zero (by simpa using h0.length_eq)
    | cons f r => exact ⟨f, r, rfl⟩
  have hmapperm : List.Perm ((first :: rest).map Prod.snd)
      (pairs.map Prod.snd) := by
    rw [← hfr]
    exact hperm.map Prod.snd
  have hth : apply_threshold (first :: rest) =
      (first :: rest).filter (fun p => decide (p.2 <
        min (first.2 + ((pairs.map Prod.snd).sum /
          (pairs.map Prod.snd).length - first.2) * (1 / 5)) (9 / 100))) := by
    rw [apply_threshold_filter]
    simp only [hmapperm.sum_eq, hmapperm.length_eq]
  refine ⟨first.2, ?_, ?_, ?_⟩
  · have h1 : first ∈ List.insertionSort distLE pairs := by
      rw [hfr]
      exact List.mem_cons_self _ _
    exact List.mem_map_of_mem Prod.snd (hperm.mem_iff.mp h1)
  · intro d hd
    obtain ⟨pr, hpr, hprd⟩ := List.mem_map.mp hd
    have hmem : pr ∈ List.insertionSort distLE pairs := hperm.mem_iff.mpr hpr
    rw [hfr] at hmem
    rcases List.mem_cons.mp hmem with h3 | h3
    · rw [← hprd, h3]
    · have h4 : distLE first pr := List.rel_of_sorted_cons (hfr ▸ hsort) pr h3
      rw [← hprd]
      exact h4
  · intro x
    rw [hfr, hth]
    constructor
    · intro hx
      obtain ⟨pr, hpr, hprx⟩ := List.mem_map.mp hx
      have h7 := List.mem_filter.mp hpr
      have h8 : pr ∈ pairs := hperm.mem_iff.mp (hfr ▸ h7.1)
      refine ⟨pr.2, ?_, of_decide_eq_true h7.2⟩
      have h9 : (x, pr.2) = pr := by
        rw [← hprx]
      rw [h9]
      exact h8
    · rintro ⟨d, hd, hdT⟩
      have h10 : (x, d) ∈ List.insertionSort distLE pairs :=
        hperm.mem_iff.mpr hd
      rw [hfr] at h10
      refine List.mem_map_of_mem Prod.fst (List.mem_filter.mpr ⟨h10, ?_⟩)
      exact decide_eq_true hdT

/-- C1: in AI mode with an empty exact pass and a query embedding, the
kept photo results are exactly the photo candidates (those with a
non-null stored embedding) whose distance is strictly below
`min(dmin + (mean − dmin)·0.2, 0.09)` where `dmin` is the least and
`mean` the mean candidate distance — and symmetrically for videos when
video candidates exist. -/
theorem c1_adaptive_threshold (dist : List ℚ → List ℚ → ℚ) (qe : List ℚ)
    (query : String) (photos : List Photo) (videos : List Video)
    (hq : query ≠ "")
    (hpm : photos.filter (aiTextMatchP query) = [])
    (hvm : videos.filter (aiTextMatchV query) = [])
    (hcp : photos.filter (fun p => p.embedding.isSome) ≠ []) :
    (∃ dmin : ℚ,
      dmin ∈ (candidatePairs Photo.embedding dist qe photos).map Prod.snd ∧
      (∀ d ∈ (candidatePairs Photo.embedding dist qe photos).map Prod.snd,
        dmin ≤ d) ∧
      (∀ x : Photo,
        x ∈ (search_album_by_text dist (some qe) query photos videos "ai").1 ↔
        ∃ d : ℚ, (x, d) ∈ candidatePairs Photo.embedding dist qe photos ∧
          d < min (dmin +
            (((candidatePairs Photo.embedding dist qe photos).map
              Prod.snd).sum /
              ((candidatePairs Photo.embedding dist qe photos).map
                Prod.snd).length - dmin) * (1 / 5)) (9 / 100))) ∧
    (videos.filter (fun v => v.thumbnail_embedding.isSome) ≠ [] →
      ∃ dmin : ℚ,
        dmin ∈ (candidatePairs Video.thumbnail_embedding dist qe videos).map
          Prod.snd ∧
        (∀ d ∈ (candidatePairs Video.thumbnail_embedding dist qe videos).map
          Prod.snd, dmin ≤ d) ∧
        (∀ x : Video,
          x ∈ (search_album_by_text dist (some qe) query photos videos "ai").2 ↔
          ∃ d : ℚ, (x, d) ∈ candidatePairs Video.thumbnail_embedding dist qe
            videos ∧
            d < min (dmin +
              (((candidatePairs Video.thumbnail_embedding dist qe videos).map
                Prod.snd).sum /
                ((candidatePairs Video.thumbnail_embedding dist qe videos).map
                  Prod.snd).length - dmin) * (1 / 5)) (9 / 100))) := by
  have hres := search_ai_vector_branch dist qe query photos videos hq hpm hvm
  constructor
  · have hne : candidatePairs Photo.embedding dist qe photos ≠ [] := by
      unfold candidatePairs
      intro h0
      exact hcp (List.map_eq_nil_iff.mp h0)
    obtain ⟨dmin, hmem, hmin, hiff⟩ :=
      vector_kept_characterization
        (candidatePairs Photo.embedding dist qe photos) hne
    refine ⟨dmin, hmem, hmin, ?_⟩
    intro x
    rw [hres]
    exact hiff x
  · intro hcv
    have hne : candidatePairs Video.thumbnail_embedding dist qe videos ≠ [] := by
      unfold candidatePairs
      intro h0
      exact hcv (List.map_eq_nil_iff.mp h0)
    obtain ⟨dmin, hmem, hmin, hiff⟩ :=
      vector_kept_characterization
        (candidatePairs Video.thumbnail_embedding dist qe videos) hne
    refine ⟨dmin, hmem, hmin, ?_⟩
    intro x
    rw [hres]
    exact hiff x

/-- C1 witness: the spec's example, distances `[0.02, 0.03, 0.5, 0.6]`:
the threshold characterisation applies, and the kept set is exactly the
two closest candidates (ids 1 and 2). -/
theorem c1_adaptive_threshold_witness :
    ("zebra" ≠ "" ∧ photosC1.filter (aiTextMatchP "zebra") = [] ∧
      ([] : List Video).filter (aiTextMatchV "zebra") = [] ∧
      photosC1.filter (fun p => p.embedding.isSome) ≠ []) ∧
    (∃ dmin : ℚ,
      dmin ∈ (candidatePairs Photo.embedding distHead [0] photosC1).map
        Prod.snd ∧
      (∀ d ∈ (candidatePairs Photo.embedding distHead [0] photosC1).map
        Prod.snd, dmin ≤ d) ∧
      (∀ x : Photo,
        x ∈ (search_album_by_text distHead (some [0]) "zebra" photosC1 []
          "ai").1 ↔
        ∃ d : ℚ, (x, d) ∈ candidatePairs Photo.embedding distHead [0]
          photosC1 ∧
          d < min (dmin +
            (((candidatePairs Photo.embedding distHead [0] photosC1).map
              Prod.snd).sum /
              ((candidatePairs Photo.embedding distHead [0] photosC1).map
                Prod.snd).length - dmin) * (1 / 5)) (9 / 100))) ∧
    ((search_album_by_text distHead (some [0]) "zebra" photosC1 []
      "ai").1).map Photo.id = [1, 2] := by
  refine ⟨⟨by decide, by decide, rfl, by decide⟩, ?_, ?_⟩
  · exact (c1_adaptive_threshold distHead [0] "zebra" photosC1 []
      (by decide) (by decide) rfl (by decide)).1
  · rw [search_ai_vector_branch distHead [0] "zebra" photosC1 []
      (by decide) (by decide) rfl]
    norm_num [withDistance, candidatePairs, apply_threshold, photosC1,
      photoD, basePhoto, distHead, distLE, List.insertionSort,
      List.orderedInsert]

/-- C2 (counterexample): candidates exist (two photos at distance 0.5),
the strict threshold filter keeps none of them, and the search returns
the empty result set — not the full unfiltered distance-ordered set the
claim promises. -/
theorem c2_counterexample :
    candidatePairs Photo.embedding distHead [0] photosC2 ≠ [] ∧
    apply_threshold (withDistance Photo.embedding distHead [0] photosC2) =
      [] ∧
    (search_album_by_text distHead (some [0]) "zebra" photosC2 [] "ai").1 =
      [] := by
  have hemp : apply_threshold
      (withDistance Photo.embedding distHead [0] photosC2) = [] := by
    norm_num [withDistance, candidatePairs, apply_threshold, photosC2,
      photoD, basePhoto, distHead, distLE, List.insertionSort,
      List.orderedInsert]
  refine ⟨by decide, hemp, ?_⟩
  rw [search_ai_vector_branch distHead [0] "zebra" photosC2 []
    (by decide) (by decide) rfl, hemp]
  rfl

/-- C2 (amended): in AI-mode vector search, if the adaptive-threshold
filter keeps no candidate then the search returns the empty result set
(`queryset.none()`), never falling back to the unfiltered candidate
set. -/
theorem c2_empty_filter (dist : List ℚ → List ℚ → ℚ) (qe : List ℚ)
    (query : String) (photos : List Photo) (videos : List Video)
    (hq : query ≠ "")
    (hpm : photos.filter (aiTextMatchP query) = [])
    (hvm : videos.filter (aiTextMatchV query) = [])
    (hfp : apply_threshold (withDistance Photo.embedding dist qe photos) = [])
    (hfv : apply_threshold
      (withDistance Video.thumbnail_embedding dist qe videos) = []) :
    search_album_by_text dist (some qe) query photos videos "ai" =
      ([], []) := by
  rw [search_ai_vector_branch dist qe query photos videos hq hpm hvm,
    hfp, hfv]
  rfl

/-- C2 witness: the amended empty-filter behaviour at the concrete
two-candidate input. -/
theorem c2_empty_filter_witness :
    ("zebra" ≠ "" ∧ photosC2.filter (aiTextMatchP "zebra") = [] ∧
      ([] : List Video).filter (aiTextMatchV "zebra") = [] ∧
      apply_threshold (withDistance Photo.embedding distHead [0] photosC2) =
        [] ∧
      apply_threshold
        (withDistance Video.thumbnail_embedding distHead [0]
          ([] : List Video)) = []) ∧
    search_album_by_text distHead (some [0]) "zebra" photosC2 [] "ai" =
      ([], []) := by
  have hemp : apply_threshold
      (withDistance Photo.embedding distHead [0] photosC2) = [] := by
    norm_num [withDistance, candidatePairs, apply_threshold, photosC2,
      photoD, basePhoto, distHead, distLE, List.insertionSort,
      List.orderedInsert]
  refine ⟨⟨by decide, by decide, rfl, hemp, rfl⟩, ?_⟩
  exact c2_empty_filter distHead [0] "zebra" photosC2 []
    (by decide) (by decide) rfl hemp rfl

/-- C3: whenever at least one candidate matches the query in its AI
description (case-insensitive substring) or AI tags (exact element), the
AI search returns exactly the exact-match candidates of each kind,
ordered by upload recency descending, and every returned item is an
exact match — so no vector-similarity candidate, however close its
embedding, appears. -/
theorem c3_exact_match_first (dist : List ℚ → List ℚ → ℚ)
    (query_embedding : Option (List ℚ)) (query : String)
    (photos : List Photo) (videos : List Video)
    (hq : query ≠ "")
    (h : (∃ p ∈ photos, aiTextMatchP query p = true) ∨
         (∃ v ∈ videos, aiTextMatchV query v = true)) :
    List.Perm
      (search_album_by_text dist query_embedding query photos videos "ai").1
      (photos.filter (aiTextMatchP query)) ∧
    List.Perm
      (search_album_by_text dist query_embedding query photos videos "ai").2
      (videos.filter (aiTextMatchV query)) ∧
    List.Sorted photoRecGE
      (search_album_by_text dist query_embedding query photos videos "ai").1 ∧
    List.Sorted videoRecGE
      (search_album_by_text dist query_embedding query photos videos "ai").2 ∧
    (∀ p ∈ (search_album_by_text dist query_embedding query photos videos
      "ai").1, aiTextMatchP query p = true) ∧
    (∀ v ∈ (search_album_by_text dist query_embedding query photos videos
      "ai").2, aiTextMatchV query v = true) := by
  have hcond : (photos.filter (aiTextMatchP query)).isEmpty = false ∨
      (videos.filter (aiTextMatchV query)).isEmpty = false := by
    rcases h with ⟨p, hp, hmp⟩ | ⟨v, hv, hmv⟩
    · exact Or.inl (List.isEmpty_eq_false.mpr
        (List.ne_nil_of_mem (List.mem_filter.mpr ⟨hp, hmp⟩)))
    · exact Or.inr (List.isEmpty_eq_false.mpr
        (List.ne_nil_of_mem (List.mem_filter.mpr ⟨hv, hmv⟩)))
  have hres := search_ai_text_branch dist query_embedding query photos videos
    hq hcond
  rw [hres]
  refine ⟨List.perm_insertionSort _ _, List.perm_insertionSort _ _,
    List.sorted_insertionSort _ _, List.sorted_insertionSort _ _, ?_, ?_⟩
  · intro p hp
    exact (List.mem_filter.mp
      ((List.perm_insertionSort photoRecGE _).mem_iff.mp hp)).2
  · intro v hv
    exact (List.mem_filter.mp
      ((List.perm_insertionSort videoRecGE _).mem_iff.mp hv)).2

/-- C3 witness: the spec's "car" scenario — one photo whose AI
description contains "car" textually, another whose embedding is far
closer to the query — the search returns only the textual match. -/
theorem c3_exact_match_first_witness :
    ("car" ≠ "" ∧
      ((∃ p ∈ [photoCar, photoSun], aiTextMatchP "car" p = true) ∨
       (∃ v ∈ ([] : List Video), aiTextMatchV "car" v = true))) ∧
    List.Perm
      (search_album_by_text distHead (some [0]) "car" [photoCar, photoSun]
        [] "ai").1
      ([photoCar, photoSun].filter (aiTextMatchP "car")) ∧
    (∀ p ∈ (search_album_by_text distHead (some [0]) "car"
      [photoCar, photoSun] [] "ai").1, aiTextMatchP "car" p = true) ∧
    ((search_album_by_text distHead (some [0]) "car" [photoCar, photoSun]
      [] "ai").1).map Photo.id = [10] := by
  have hmain := c3_exact_match_first distHead (some [0]) "car"
    [photoCar, photoSun] [] (by decide)
    (Or.inl ⟨photoCar, List.mem_cons_self photoCar [photoSun], by decide⟩)
  exact ⟨⟨by decide,
    Or.inl ⟨photoCar, List.mem_cons_self photoCar [photoSun], by decide⟩⟩,
    hmain.1, hmain.2.2.2.2.1, by decide⟩

end PhotoAlbum
